import Mathlib

/-!
Verification development for the redisgraphio crate (src/parse.rs, src/types.rs,
src/helpers.rs as compiled through src/lib.rs; src/query.rs and src/tests.rs are
not declared in lib.rs and are historical snapshots).

Shallow embedding conventions:
  * redis::Value is modelled by `Value` below (Data carries the decoded UTF-8
    string; its debug form renders the character codes, which agrees with the
    Rust byte-list rendering for ASCII payloads).
  * i64 is modelled by `Int` (range checks are made explicit where the source
    performs them), f64/f32 by `Rat` (the claims under study never depend on
    IEEE rounding; the float string parser below covers the finite decimal
    grammar of Rust's `FromStr for f64`, not `inf`/`nan`).
  * `RedisResult` is modelled by `Except RErr` where `RErr` is the description
    string handed to `create_rediserror` (the kind/category of the error is the
    constant `(TypeError, "Parsing Error")` in every call of the core).
  * Rust panics (unwrap / out-of-bounds indexing) are modelled by the `Ret`
    wrapper: `Ret.panicked` is an abort, `Ret.ret` a normal return.
  * HashMap / IndexMap are modelled as association lists with the respective
    collect/insert semantics made explicit (`hashmap_collect`,
    `indexmap_collect`); HashMap iteration order is not observable in any
    claim under study.
-/

/-- Model of `redis::Value` (the already-parsed generic reply value). -/
inductive Value where
  | Nil : Value
  | Int (i : Int) : Value
  | Data (s : String) : Value
  | Bulk (l : List Value) : Value
  | Status (s : String) : Value
  | Okay : Value

/-- Model of `GeoPoint` from src/parse.rs (f32 coordinates modelled as `Rat`). -/
structure GeoPoint where
  latitude : Rat
  longitude : Rat
deriving DecidableEq

mutual
/-- Model of `GraphValue` from src/parse.rs. -/
inductive GraphValue where
  | Unknown (v : Value) : GraphValue
  | Map (m : List (String × GraphValue)) : GraphValue
  | Point (p : GeoPoint) : GraphValue
  | Path (p : GraphPath) : GraphValue
  | Node (n : Node) : GraphValue
  | Relation (r : Relationship) : GraphValue
  | Array (l : List GraphValue) : GraphValue
  | Integer (i : Int) : GraphValue
  | Double (d : Rat) : GraphValue
  | String (s : String) : GraphValue
  | Boolean (b : Bool) : GraphValue
  | Null : GraphValue

/-- Model of `Node` from src/parse.rs: id, label ids and the insertion-ordered
property map (`IndexMap<i64, GraphValue>` modelled as an ordered association
list). -/
inductive Node where
  | mk (id : Int) (label_ids : List Int) (properties : List (Int × GraphValue)) : Node

/-- Model of `Relationship` from src/parse.rs. -/
inductive Relationship where
  | mk (id : Int) (label_id : Int) (src : Int) (dest : Int)
      (properties : List (Int × GraphValue)) : Relationship

/-- Model of `GraphPath` from src/parse.rs. -/
inductive GraphPath where
  | mk (nodes : List Node) (relationships : List Relationship) : GraphPath
end

def Node.id : Node → Int
  | .mk i _ _ => i

def Node.label_ids : Node → List Int
  | .mk _ l _ => l

def Node.properties : Node → List (Int × GraphValue)
  | .mk _ _ p => p

def Relationship.properties : Relationship → List (Int × GraphValue)
  | .mk _ _ _ _ p => p

/-- A `RedisError` of the core is always `(TypeError, "Parsing Error", desc)`;
only the description varies, so the error model is its description string. -/
abbrev RErr := String

/-- Model of `helpers::create_rediserror`. -/
def create_rediserror (desc : String) : RErr := desc

/-- Result of a Rust function that can panic: `panicked` models an abort
(`unwrap` failure or out-of-bounds index), `ret` a normal return. -/
inductive Ret (α : Type u) where
  | panicked : Ret α
  | ret (a : α) : Ret α
deriving DecidableEq

/-! ## String utilities mirroring the Rust std functions used by the source -/

/-- Model of `str::starts_with` on string patterns. -/
def starts_with (s p : String) : Bool := p.data.isPrefixOf s.data

/-- Model of `str::split_once` over the character list: splits at the first
occurrence of the (non-empty) delimiter. -/
def split_once_chars (l d : List Char) : Option (List Char × List Char) :=
  if d.isPrefixOf l then some ([], l.drop d.length)
  else
    match l with
    | [] => none
    | c :: r => (split_once_chars r d).map fun p => (c :: p.1, p.2)

/-- Model of `str::split_once`. -/
def split_once (s d : String) : Option (String × String) :=
  (split_once_chars s.data d.data).map fun p => (String.mk p.1, String.mk p.2)

/-- Numeric value of a list of decimal digits. -/
def digits_to_nat (l : List Char) : Nat :=
  l.foldl (fun a c => a * 10 + (c.toNat - 48)) 0

/-- Model of `i64::from_str` (as used by the redis crate when an integer
arrives as a string): optional sign, at least one digit, i64 range check. -/
def parse_i64 (s : String) : Option Int :=
  let core : List Char → Bool → Option Int := fun l neg =>
    if l = [] ∨ ¬ l.all Char.isDigit then none
    else
      let n : Int := (digits_to_nat l : Int)
      let v : Int := if neg then -n else n
      if -(2 ^ 63) ≤ v ∧ v < 2 ^ 63 then some v else none
  match s.data with
  | '+' :: r => core r false
  | '-' :: r => core r true
  | l => core l false

/-- Model of the finite-decimal part of `f64::from_str` (exact value as a
rational; `inf`/`nan`/rounding are outside the scope of this embedding):
`sign? (digits ('.' digits*)? | '.' digits) (('e'|'E') sign? digits)?`. -/
def parse_f64 (s : String) : Option Rat :=
  -- the exact value is built as one `mkRat mant den`: mantissa and decimal
  -- denominator of the literal, then the exponent shifts one of the two
  let finish : Bool → Nat → Nat → List Char → Option Rat := fun neg mant fdigits l =>
    let mk : Nat → Nat → Option Rat := fun shiftNum shiftDen =>
      let num : Int := (mant * 10 ^ shiftNum : Nat)
      some (mkRat (if neg then -num else num) (10 ^ (fdigits + shiftDen)))
    match l with
    | [] => mk 0 0
    | e :: rest =>
      if e = 'e' ∨ e = 'E' then
        let (eneg, l2) :=
          match rest with
          | '+' :: r => (false, r)
          | '-' :: r => (true, r)
          | r => (false, r)
        if l2 = [] ∨ ¬ l2.all Char.isDigit then none
        else if eneg then mk 0 (digits_to_nat l2) else mk (digits_to_nat l2) 0
      else none
  let (neg, l) :=
    match s.data with
    | '+' :: r => (false, r)
    | '-' :: r => (true, r)
    | r => (false, r)
  let (ip, rest) := l.span Char.isDigit
  match rest with
  | [] => if ip = [] then none else finish neg (digits_to_nat ip) 0 []
  | '.' :: rest2 =>
    let (fp, rest3) := rest2.span Char.isDigit
    if ip = [] ∧ fp = [] then none
    else finish neg (digits_to_nat ip * 10 ^ fp.length + digits_to_nat fp) fp.length rest3
  | _ => if ip = [] then none else finish neg (digits_to_nat ip) 0 rest

/-- Lowercase hex rendering of a character code (codes are below 16^6). -/
def to_hex (n : Nat) : List Char :=
  let digit : Nat → Char := fun d =>
    if d < 10 then Char.ofNat (48 + d) else Char.ofNat (87 + d)
  let six := [digit (n / 16 ^ 5 % 16), digit (n / 16 ^ 4 % 16),
    digit (n / 16 ^ 3 % 16), digit (n / 16 ^ 2 % 16),
    digit (n / 16 % 16), digit (n % 16)]
  match six.dropWhile (fun c => c = '0') with
  | [] => ['0']
  | l => l

/-- Model of `char::escape_default`: `\t` `\r` `\n` backslash and both quotes
get two-character escapes, printable ASCII is kept, anything else becomes a
`\u` hex escape. -/
def escape_default_char (c : Char) : List Char :=
  if c = '\t' then ['\\', 't']
  else if c = '\r' then ['\\', 'r']
  else if c = '\n' then ['\\', 'n']
  else if c = '\\' then ['\\', '\\']
  else if c = '\'' then ['\\', '\'']
  else if c = '"' then ['\\', '"']
  else if 32 ≤ c.toNat ∧ c.toNat ≤ 126 then [c]
  else ['\\', 'u', Char.ofNat 123] ++ to_hex c.toNat ++ [Char.ofNat 125]

/-- Model of `str::escape_default` (characterwise). -/
def escape_default (s : String) : String :=
  String.mk (s.data.foldr (fun c acc => escape_default_char c ++ acc) [])

/-- Decimal rendering of a rational whose denominator divides a power of ten;
this is the shape every value parsed from a finite decimal has.  Used to model
the `Display`/`Debug` rendering of f64 (which for such values prints the exact
decimal). -/
def rat_decimal (q : Rat) : String :=
  match (List.range 64).find? (fun k => (10 : Nat) ^ k % q.den = 0) with
  | none => toString q
  | some k =>
    let scaled : Nat := q.num.natAbs * ((10 : Nat) ^ k / q.den)
    let ipart := scaled / 10 ^ k
    let fdigits := toString (10 ^ k + scaled % 10 ^ k)
    let frac := String.mk ((fdigits.data.drop 1).reverse.dropWhile (fun c => c = '0')).reverse
    (if q.num < 0 then "-" else "") ++ toString ipart ++
      (if frac = "" then "" else "." ++ frac)

/-- Model of `Display for f64` on the modelled (decimal) values: integers print
without a fractional part. -/
def f64_display (q : Rat) : String :=
  if q.den = 1 then toString q.num else rat_decimal q

/-- Model of `Debug for f64` on the modelled values: integers print with a
trailing `.0`. -/
def f64_debug (q : Rat) : String :=
  if q.den = 1 then toString q.num ++ ".0" else rat_decimal q

/-! ## Debug renderings (`{:?}`) used inside the source's error messages.
`String`'s debug form is approximated with `escape_default` (Rust uses
`escape_debug`, which differs only on characters that never occur in the
claims' inputs); `HashMap`'s unordered iteration is rendered in list order. -/

/-- Model of `Debug for String`: quoted, contents escaped. -/
def string_debug (s : String) : String :=
  "\"" ++ escape_default s ++ "\""

mutual
/-- Model of `Debug for redis::Value` (`Data` renders its byte list; for the
modelled UTF-8 strings the character codes are rendered). -/
def debug_value : Value → String
  | .Nil => "Nil"
  | .Int i => "Int(" ++ toString i ++ ")"
  | .Data s => "Data(" ++ toString (s.data.map Char.toNat) ++ ")"
  | .Bulk l => "Bulk([" ++ debug_value_list l ++ "])"
  | .Status s => "Status(" ++ string_debug s ++ ")"
  | .Okay => "Okay"

def debug_value_list : List Value → String
  | [] => ""
  | [v] => debug_value v
  | v :: r => debug_value v ++ ", " ++ debug_value_list r
end

mutual
/-- Model of the derived `Debug for GraphValue`. -/
def debug_graphvalue : GraphValue → String
  | .Unknown v => "Unknown(" ++ debug_value v ++ ")"
  | .Map m => "Map(GraphMap(\x7b" ++ debug_strmap m ++ "\x7d))"
  | .Point p =>
    "Point(GeoPoint \x7b latitude: " ++ f64_debug p.latitude ++
      ", longitude: " ++ f64_debug p.longitude ++ " \x7d)"
  | .Path p => "Path(" ++ debug_path p ++ ")"
  | .Node n => "Node(" ++ debug_node n ++ ")"
  | .Relation r => "Relation(" ++ debug_rel r ++ ")"
  | .Array l => "Array([" ++ debug_graphvalue_list l ++ "])"
  | .Integer i => "Integer(" ++ toString i ++ ")"
  | .Double d => "Double(" ++ f64_debug d ++ ")"
  | .String s => "String(" ++ string_debug s ++ ")"
  | .Boolean b => "Boolean(" ++ (if b then "true" else "false") ++ ")"
  | .Null => "Null"

def debug_graphvalue_list : List GraphValue → String
  | [] => ""
  | [v] => debug_graphvalue v
  | v :: r => debug_graphvalue v ++ ", " ++ debug_graphvalue_list r

def debug_strmap : List (String × GraphValue) → String
  | [] => ""
  | [(k, v)] => string_debug k ++ ": " ++ debug_graphvalue v
  | (k, v) :: r => string_debug k ++ ": " ++ debug_graphvalue v ++ ", " ++ debug_strmap r

def debug_props : List (Int × GraphValue) → String
  | [] => ""
  | [(k, v)] => toString k ++ ": " ++ debug_graphvalue v
  | (k, v) :: r => toString k ++ ": " ++ debug_graphvalue v ++ ", " ++ debug_props r

def debug_node : Node → String
  | .mk i ls ps =>
    "Node \x7b id: " ++ toString i ++ ", label_ids: " ++ toString ls ++
      ", properties: \x7b" ++ debug_props ps ++ "\x7d \x7d"

def debug_rel : Relationship → String
  | .mk i l s d ps =>
    "Relationship \x7b id: " ++ toString i ++ ", label_id: " ++ toString l ++
      ", src: " ++ toString s ++ ", dest: " ++ toString d ++
      ", properties: \x7b" ++ debug_props ps ++ "\x7d \x7d"

def debug_node_list : List Node → String
  | [] => ""
  | [v] => debug_node v
  | v :: r => debug_node v ++ ", " ++ debug_node_list r

def debug_rel_list : List Relationship → String
  | [] => ""
  | [v] => debug_rel v
  | v :: r => debug_rel v ++ ", " ++ debug_rel_list r

def debug_path : GraphPath → String
  | .mk ns rs =>
    "GraphPath \x7b nodes: [" ++ debug_node_list ns ++ "], relationships: [" ++
      debug_rel_list rs ++ "] \x7d"
end

/-! ## Non-recursive redis decoders (`FromRedisValue` of the redis crate for
the leaf types the source requests). -/

/-- Model of the redis crate's `invalid_type_error!` description. -/
def invalid_type_error (v : Value) (msg : String) : RErr :=
  "Response was of incompatible type: " ++ msg ++ " (response was " ++
    debug_value v ++ ")"

/-- `FromRedisValue for i64`: an `Int` reply directly, or a string parsed as a
decimal integer. -/
def i64_from_redis (v : Value) : Except RErr Int :=
  match v with
  | .Int i => .ok i
  | .Data s =>
    match parse_i64 s with
    | some i => .ok i
    | none => .error (invalid_type_error v "Could not convert from string.")
  | .Status s =>
    match parse_i64 s with
    | some i => .ok i
    | none => .error (invalid_type_error v "Could not convert from string.")
  | _ => .error (invalid_type_error v "Response type not convertible to numeric.")

/-- `FromRedisValue for f64`: an `Int` reply widened, or a string parsed as a
decimal float. -/
def f64_from_redis (v : Value) : Except RErr Rat :=
  match v with
  | .Int i => .ok (mkRat i 1)
  | .Data s =>
    match parse_f64 s with
    | some q => .ok q
    | none => .error (invalid_type_error v "Could not convert from string.")
  | .Status s =>
    match parse_f64 s with
    | some q => .ok q
    | none => .error (invalid_type_error v "Could not convert from string.")
  | _ => .error (invalid_type_error v "Response type not convertible to numeric.")

/-- `FromRedisValue for f32` (the numeric value; f32 rounding is outside this
embedding, see the header). -/
def f32_from_redis (v : Value) : Except RErr Rat := f64_from_redis v

/-- `FromRedisValue for String`: `Data`/`Status` payloads and `Okay`. -/
def string_from_redis (v : Value) : Except RErr String :=
  match v with
  | .Data s => .ok s
  | .Okay => .ok "OK"
  | .Status s => .ok s
  | _ => .error (invalid_type_error v "Response type not string compatible.")

/-- First-error-wins traversal (`collect::<RedisResult<_>>()`). -/
def map_except (f : α → Except RErr β) : List α → Except RErr (List β)
  | [] => .ok []
  | x :: xs =>
    match f x with
    | .error e => .error e
    | .ok b =>
      match map_except f xs with
      | .error e => .error e
      | .ok bs => .ok (b :: bs)

/-- `FromRedisValue for Vec<T>` for a non-recursive element decoder: a `Bulk`
reply decodes elementwise, `Nil` is the empty vector. -/
def vec_from_redis (dec : Value → Except RErr α) (v : Value) : Except RErr (List α) :=
  match v with
  | .Bulk l => map_except dec l
  | .Nil => .ok []
  | _ => .error (invalid_type_error v "Response type not vector compatible.")

/-- `FromRedisValue for Vec<i64>`. -/
def vec_i64_from_redis (v : Value) : Except RErr (List Int) :=
  vec_from_redis i64_from_redis v

/-- `FromRedisValue for Vec<String>`. -/
def vec_string_from_redis (v : Value) : Except RErr (List String) :=
  vec_from_redis string_from_redis v

/-- `FromRedisValue for Vec<Value>` (`Value`'s own conversion is the identity). -/
def vec_value_from_redis (v : Value) : Except RErr (List Value) :=
  vec_from_redis (fun w => .ok w) v

/-- `FromRedisValue for (i64, String)` (a header entry): exactly a 2-element
sequence, components decoded positionally. -/
def pair_i64_string_from_redis (v : Value) : Except RErr (Int × String) :=
  match v with
  | .Bulk [a, b] =>
    match i64_from_redis a with
    | .error e => .error e
    | .ok i =>
      match string_from_redis b with
      | .error e => .error e
      | .ok s => .ok (i, s)
  | _ => .error (invalid_type_error v "Not a 2-tuple.")

/-- `FromRedisValue for (i64, i64, Value)` (a property triple): exactly a
3-element sequence. -/
def triple_from_redis (v : Value) : Except RErr (Int × Int × Value) :=
  match v with
  | .Bulk [a, b, c] =>
    match i64_from_redis a with
    | .error e => .error e
    | .ok i =>
      match i64_from_redis b with
      | .error e => .error e
      | .ok j => .ok (i, j, c)
  | _ => .error (invalid_type_error v "Not a 3-tuple.")

/-- `FromRedisValue for GeoPoint`: positionally decoded `(f32, f32)`. -/
def point_from_redis (v : Value) : Except RErr GeoPoint :=
  match v with
  | .Bulk [a, b] =>
    match f32_from_redis a with
    | .error e => .error e
    | .ok la =>
      match f32_from_redis b with
      | .error e => .error e
      | .ok lo => .ok ⟨la, lo⟩
  | _ => .error (invalid_type_error v "Not a 2-tuple.")

/-- `HashMap::from_iter` on the lookup-relevant fragment: duplicate keys keep
the last value (iteration order of the Rust `HashMap` is arbitrary and not
observable in the claims; the list order here carries no meaning). -/
def hashmap_collect (l : List (String × GraphValue)) : List (String × GraphValue) :=
  l.foldl (fun acc p =>
    if (acc.lookup p.1).isSome
    then acc.map fun q => if q.1 = p.1 then p else q
    else acc ++ [p]) []

/-! ## FromGraphValue helpers needed inside the wire decoder (GraphPath decodes
its two sides through `Vec<Node>` / `Vec<Relationship>` conversions). -/

/-- `FromGraphValue for Node`: accepts only the `Node` variant. -/
def node_from_graphvalue (value : GraphValue) : Except RErr Node :=
  match value with
  | .Node n => .ok n
  | _ => .error (create_rediserror ("Cant convert " ++ debug_graphvalue value ++ " to Node"))

/-- `FromGraphValue for Relationship`: accepts only the `Relation` variant. -/
def rel_from_graphvalue (value : GraphValue) : Except RErr Relationship :=
  match value with
  | .Relation r => .ok r
  | _ => .error (create_rediserror ("Cant convert " ++ debug_graphvalue value ++ " to Relationship"))

/-- `FromGraphValue for Vec<T>`: requires the `Array` variant and converts
every element, first error wins (atomic failure). -/
def vec_from_graphvalue (conv : GraphValue → Except RErr α) (value : GraphValue) :
    Except RErr (List α) :=
  match value with
  | .Array l => map_except conv l
  | _ => .error (create_rediserror ("Cant convert " ++ debug_graphvalue value ++ " to Vec"))

/-- `IndexMap::from_iter` semantics: a duplicate key keeps its original
position and takes the later value; fresh keys append (insertion order). -/
def indexmap_collect (l : List (Int × GraphValue)) : List (Int × GraphValue) :=
  l.foldl (fun acc p =>
    if (acc.lookup p.1).isSome
    then acc.map fun q => if q.1 = p.1 then (q.1, p.2) else q
    else acc ++ [p]) []

/-! ## The tag table (`mod types` of src/parse.rs) -/

def VALUE_UNKNOWN : Int := 0
def VALUE_NULL : Int := 1
def VALUE_STRING : Int := 2
def VALUE_INTEGER : Int := 3
def VALUE_BOOLEAN : Int := 4
def VALUE_DOUBLE : Int := 5
def VALUE_ARRAY : Int := 6
def VALUE_EDGE : Int := 7
def VALUE_NODE : Int := 8
def VALUE_PATH : Int := 9
def VALUE_MAP : Int := 10
def VALUE_POINT : Int := 11

/-! ## The recursive wire decoder cluster of src/parse.rs.
The per-tag continuations (`node_arm` etc.) are the match trees each
dispatcher arm applies to its decoded components; they are split out of
`convert_to_graphvalue` so the mutual recursion below stays small. -/

/-- The Node arm: assemble the three decoded components, first error wins. -/
def node_arm (x : Except RErr Int) (y : Except RErr (List Int))
    (z : Except RErr (List (Int × GraphValue))) : Except RErr GraphValue :=
  match x with
  | .error e => .error e
  | .ok id =>
    match y with
    | .error e => .error e
    | .ok label_ids =>
      match z with
      | .error e => .error e
      | .ok properties => .ok (GraphValue.Node (Node.mk id label_ids properties))

/-- The Relation arm: assemble the five decoded components. -/
def rel_arm (x y z w : Except RErr Int)
    (u : Except RErr (List (Int × GraphValue))) : Except RErr GraphValue :=
  match x with
  | .error e => .error e
  | .ok id =>
    match y with
    | .error e => .error e
    | .ok label_id =>
      match z with
      | .error e => .error e
      | .ok src =>
        match w with
        | .error e => .error e
        | .ok dest =>
          match u with
          | .error e => .error e
          | .ok properties =>
            .ok (GraphValue.Relation (Relationship.mk id label_id src dest properties))

/-- The Path arm: the two decoded wire Graph Values are converted as
`Vec<Node>` and `Vec<Relationship>`. -/
def path_arm (x y : Except RErr GraphValue) : Except RErr GraphValue :=
  match x with
  | .error e => .error e
  | .ok gnodes =>
    match y with
    | .error e => .error e
    | .ok grels =>
      match vec_from_graphvalue node_from_graphvalue gnodes with
      | .error e => .error e
      | .ok nodes =>
        match vec_from_graphvalue rel_from_graphvalue grels with
        | .error e => .error e
        | .ok relationships => .ok (GraphValue.Path (GraphPath.mk nodes relationships))

/-- The Map arm: collect the decoded pairs into a `HashMap`. -/
def map_arm (x : Except RErr (List (String × GraphValue))) : Except RErr GraphValue :=
  match x with
  | .error e => .error e
  | .ok temp => .ok (GraphValue.Map (hashmap_collect temp))

/-- The Point arm. -/
def point_arm (x : Except RErr GeoPoint) : Except RErr GraphValue :=
  match x with
  | .error e => .error e
  | .ok p => .ok (GraphValue.Point p)

/-- The Double arm. -/
def double_arm (x : Except RErr Rat) : Except RErr GraphValue :=
  match x with
  | .error e => .error e
  | .ok d => .ok (GraphValue.Double d)

/-- The Integer arm. -/
def integer_arm (x : Except RErr Int) : Except RErr GraphValue :=
  match x with
  | .error e => .error e
  | .ok i => .ok (GraphValue.Integer i)

/-- The Array arm. -/
def array_arm (x : Except RErr (List GraphValue)) : Except RErr GraphValue :=
  match x with
  | .error e => .error e
  | .ok l => .ok (GraphValue.Array l)

/-- The String arm. -/
def string_arm (x : Except RErr String) : Except RErr GraphValue :=
  match x with
  | .error e => .error e
  | .ok s => .ok (GraphValue.String s)

/-- The Boolean arm: the raw value is decoded as a string and matched
literally against `"true"` / `"false"`. -/
def boolean_arm (x : Except RErr String) (val : Value) : Except RErr GraphValue :=
  match x with
  | .error e => .error e
  | .ok s =>
    if s = "true" then .ok (GraphValue.Boolean true)
    else if s = "false" then .ok (GraphValue.Boolean false)
    else .error (create_rediserror ("Cant convert " ++ debug_value val ++ " to bool"))

/-- The two error gates of `parse_properties` over its two pass results:
first the triple-shape pass, then the conversion pass, then the `IndexMap`
collect. -/
def pp_stages (chk : Except RErr (List (Int × Int × Value)))
    (conv2 : Except RErr (List (Int × GraphValue))) :
    Except RErr (List (Int × GraphValue)) :=
  match chk with
  | .error e => .error e
  | .ok _ =>
    match conv2 with
    | .error e => .error e
    | .ok props => .ok (indexmap_collect props)

mutual
/-- Model of `convert_to_graphvalue` (src/parse.rs): the tag dispatcher.  The
composite cases delegate to `from_redis_value` for `Node`, `Relationship`,
`GraphPath`, `GraphMap` and `Vec<GraphValue>`; those decoders are inlined
here (destructuring first, then the corresponding arm) so that the recursion
is structural, and are restated in the source's own shape as
`node_from_redis` (etc.) below, with per-tag bridging equations
`convert_tagN_eq`. -/
def convert_to_graphvalue (type_ : Int) (val : Value) : Except RErr GraphValue :=
  if type_ = VALUE_NODE then
    match val with
    | .Bulk [v0, v1, v2] =>
      node_arm (i64_from_redis v0) (vec_i64_from_redis v1) (parse_properties v2)
    | v => .error (create_rediserror ("Couldnt convert " ++ debug_value v ++ " to Node"))
  else if type_ = VALUE_EDGE then
    match val with
    | .Bulk [v0, v1, v2, v3, v4] =>
      rel_arm (i64_from_redis v0) (i64_from_redis v1) (i64_from_redis v2)
        (i64_from_redis v3) (parse_properties v4)
    | v => .error (create_rediserror ("Couldnt convert " ++ debug_value v ++ " to Relationship"))
  else if type_ = VALUE_PATH then
    match val with
    | .Bulk [a, b] => path_arm (graphvalue_from_redis a) (graphvalue_from_redis b)
    | _ => .error (invalid_type_error val "Not a 2-tuple.")
  else if type_ = VALUE_MAP then
    match val with
    | .Bulk values => map_arm (map_pairs values)
    | v => .error (create_rediserror ("Couldnt convert " ++ debug_value v ++ " to GraphMap"))
  else if type_ = VALUE_POINT then point_arm (point_from_redis val)
  else if type_ = VALUE_NULL then .ok GraphValue.Null
  else if type_ = VALUE_DOUBLE then double_arm (f64_from_redis val)
  else if type_ = VALUE_INTEGER then integer_arm (i64_from_redis val)
  else if type_ = VALUE_ARRAY then
    match val with
    | .Bulk l => array_arm (gv_list_from_redis l)
    | .Nil => .ok (GraphValue.Array [])
    | _ => .error (invalid_type_error val "Response type not vector compatible.")
  else if type_ = VALUE_STRING then string_arm (string_from_redis val)
  else if type_ = VALUE_BOOLEAN then boolean_arm (string_from_redis val) val
  else .ok (GraphValue.Unknown val)

/-- Model of `FromRedisValue for GraphValue`: a 2-element `(tag, raw)` pair
dispatched through `convert_to_graphvalue`. -/
def graphvalue_from_redis (v : Value) : Except RErr GraphValue :=
  match v with
  | .Bulk [.Int type_, raw] => convert_to_graphvalue type_ raw
  | .Bulk [t, _] =>
    .error (create_rediserror ("Couldnt convert " ++ debug_value t ++ " to GraphValue"))
  | value => .error (create_rediserror ("Couldnt convert " ++ debug_value value ++ " to GraphValue"))

/-- `FromRedisValue for Vec<GraphValue>`, `Bulk` branch: elementwise decode,
first error wins. -/
def gv_list_from_redis (l : List Value) : Except RErr (List GraphValue) :=
  match l with
  | [] => .ok []
  | x :: xs =>
    match graphvalue_from_redis x with
    | .error e => .error e
    | .ok g =>
      match gv_list_from_redis xs with
      | .error e => .error e
      | .ok gs => .ok (g :: gs)

/-- Model of `parse_properties` (src/parse.rs).  The source decodes
`Vec<Value>` (inlined here: `Bulk` yields its elements, `Nil` the empty list),
then collects every `(i64, i64, Value)` triple — the first shape error wins —
and only then converts each triple's value through the dispatcher, collecting
into an `IndexMap`.  The checked triple pass is repeated structurally in
`props_convert_list` so that the recursion is on subterms. -/
def parse_properties (value : Value) : Except RErr (List (Int × GraphValue)) :=
  match value with
  | .Bulk l => pp_stages (map_except triple_from_redis l) (props_convert_list l)
  | .Nil => .ok (indexmap_collect [])
  | _ => .error (invalid_type_error value "Response type not vector compatible.")

/-- The conversion pass of `parse_properties` over the already-shape-checked
triple list (the fallback arm is unreachable after the checked pass). -/
def props_convert_list (l : List Value) : Except RErr (List (Int × GraphValue)) :=
  match l with
  | [] => .ok []
  | x :: xs =>
    match x with
    | .Bulk [a, b, c] =>
      match i64_from_redis a with
      | .error e => .error e
      | .ok property_id =>
        match i64_from_redis b with
        | .error e => .error e
        | .ok type_ =>
          match convert_to_graphvalue type_ c with
          | .error e => .error e
          | .ok gvalue =>
            match props_convert_list xs with
            | .error e => .error e
            | .ok rest => .ok ((property_id, gvalue) :: rest)
    | _ => .error (invalid_type_error x "Not a 3-tuple.")

/-- The chunking pair decode of the redis crate's `from_redis_values` for
`(String, GraphValue)` on the flat key/value list: a trailing odd element has
its key decoded (errors propagate), then is dropped when the iterator ends
mid-tuple. -/
def map_pairs (l : List Value) : Except RErr (List (String × GraphValue)) :=
  match l with
  | [] => .ok []
  | [k] =>
    match string_from_redis k with
    | .error e => .error e
    | .ok _ => .ok []
  | k :: gv :: rest =>
    match string_from_redis k with
    | .error e => .error e
    | .ok key =>
      match graphvalue_from_redis gv with
      | .error e => .error e
      | .ok g =>
        match map_pairs rest with
        | .error e => .error e
        | .ok ps => .ok ((key, g) :: ps)
end

/-! The source-shaped standalone decoders (the bodies of the corresponding
`FromRedisValue` impls).  The `_res` helpers are the `?`-chains of those
impls over the already-decoded components; `convert_tagN_eq` below equates
the dispatcher's arms with these decoders. -/

/-- The `?`-chain of `FromRedisValue for Node` over the decoded components. -/
def node_res (x : Except RErr Int) (y : Except RErr (List Int))
    (z : Except RErr (List (Int × GraphValue))) : Except RErr Node :=
  match x with
  | .error e => .error e
  | .ok id =>
    match y with
    | .error e => .error e
    | .ok label_ids =>
      match z with
      | .error e => .error e
      | .ok properties => .ok (Node.mk id label_ids properties)

/-- Model of `FromRedisValue for Node`: exactly a 3-element sequence
`[id, label ids, property list]`. -/
def node_from_redis (v : Value) : Except RErr Node :=
  match v with
  | .Bulk [v0, v1, v2] =>
    node_res (i64_from_redis v0) (vec_i64_from_redis v1) (parse_properties v2)
  | val => .error (create_rediserror ("Couldnt convert " ++ debug_value val ++ " to Node"))

/-- The `?`-chain of `FromRedisValue for Relationship`. -/
def rel_res (x y z w : Except RErr Int)
    (u : Except RErr (List (Int × GraphValue))) : Except RErr Relationship :=
  match x with
  | .error e => .error e
  | .ok id =>
    match y with
    | .error e => .error e
    | .ok label_id =>
      match z with
      | .error e => .error e
      | .ok src =>
        match w with
        | .error e => .error e
        | .ok dest =>
          match u with
          | .error e => .error e
          | .ok properties => .ok (Relationship.mk id label_id src dest properties)

/-- Model of `FromRedisValue for Relationship`: exactly a 5-element sequence. -/
def rel_from_redis (v : Value) : Except RErr Relationship :=
  match v with
  | .Bulk [v0, v1, v2, v3, v4] =>
    rel_res (i64_from_redis v0) (i64_from_redis v1) (i64_from_redis v2)
      (i64_from_redis v3) (parse_properties v4)
  | val => .error (create_rediserror ("Couldnt convert " ++ debug_value val ++ " to Relationship"))

/-- The `?`-chain of `FromRedisValue for GraphPath` over the two decoded wire
Graph Values: each side is converted as `Vec<Node>` / `Vec<Relationship>`. -/
def path_res (x y : Except RErr GraphValue) : Except RErr GraphPath :=
  match x with
  | .error e => .error e
  | .ok gnodes =>
    match y with
    | .error e => .error e
    | .ok grels =>
      match vec_from_graphvalue node_from_graphvalue gnodes with
      | .error e => .error e
      | .ok nodes =>
        match vec_from_graphvalue rel_from_graphvalue grels with
        | .error e => .error e
        | .ok relationships => .ok (GraphPath.mk nodes relationships)

/-- Model of `FromRedisValue for GraphPath`: a 2-element sequence decoded as
`(GraphValue, GraphValue)` and then converted. -/
def path_from_redis (v : Value) : Except RErr GraphPath :=
  match v with
  | .Bulk [a, b] => path_res (graphvalue_from_redis a) (graphvalue_from_redis b)
  | _ => .error (invalid_type_error v "Not a 2-tuple.")

/-- The collect step of `FromRedisValue for GraphMap`. -/
def map_res (x : Except RErr (List (String × GraphValue))) :
    Except RErr (List (String × GraphValue)) :=
  match x with
  | .error e => .error e
  | .ok temp => .ok (hashmap_collect temp)

/-- Model of `FromRedisValue for GraphMap`: the flat key/value sequence is
decoded through the chunking pair decode, then collected into a `HashMap`. -/
def map_from_redis (v : Value) : Except RErr (List (String × GraphValue)) :=
  match v with
  | .Bulk values => map_res (map_pairs values)
  | value => .error (create_rediserror ("Couldnt convert " ++ debug_value value ++ " to GraphMap"))

/-- `FromRedisValue for Vec<GraphValue>`. -/
def vec_graphvalue_from_redis (v : Value) : Except RErr (List GraphValue) :=
  match v with
  | .Bulk l => gv_list_from_redis l
  | .Nil => .ok []
  | _ => .error (invalid_type_error v "Response type not vector compatible.")

/-! ## The conversion trait system (`FromGraphValue` impls of src/parse.rs) -/

/-- The shape of a `FromGraphValue` implementation. -/
abbrev ConvT (α : Type) := GraphValue → Except RErr α

/-- Model of the `from_graph_value_for_int!` macro body for one integer type
of numeric range `[lo, hi]` named `tyname`: only the `Integer` variant is
accepted and `try_from` makes narrowing explicit. -/
def int_from_graphvalue (lo hi : Int) (tyname : String) : ConvT Int := fun value =>
  match value with
  | .Integer val =>
    if lo ≤ val ∧ val ≤ hi then .ok val
    else .error (create_rediserror ("Could not convert to " ++ tyname))
  | _ => .error (create_rediserror ("Cant convert " ++ debug_graphvalue value ++ " to " ++ tyname))

def i8_from_graphvalue : ConvT Int := int_from_graphvalue (-(2 ^ 7)) (2 ^ 7 - 1) "i8"
def i16_from_graphvalue : ConvT Int := int_from_graphvalue (-(2 ^ 15)) (2 ^ 15 - 1) "i16"
def i32_from_graphvalue : ConvT Int := int_from_graphvalue (-(2 ^ 31)) (2 ^ 31 - 1) "i32"
def i64_from_graphvalue : ConvT Int := int_from_graphvalue (-(2 ^ 63)) (2 ^ 63 - 1) "i64"
def u8_from_graphvalue : ConvT Int := int_from_graphvalue 0 (2 ^ 8 - 1) "u8"
def u16_from_graphvalue : ConvT Int := int_from_graphvalue 0 (2 ^ 16 - 1) "u16"
def u32_from_graphvalue : ConvT Int := int_from_graphvalue 0 (2 ^ 32 - 1) "u32"
def u64_from_graphvalue : ConvT Int := int_from_graphvalue 0 (2 ^ 64 - 1) "u64"

/-- Model of `FromGraphValue for f64`: only the `Double` variant is accepted.
(The source's error text ends in a literal `$t`: the macro-typo
`stringify!($t)` sits inside a plain `impl`, not a macro.) -/
def f64_from_graphvalue : ConvT Rat := fun value =>
  match value with
  | .Double val => .ok val
  | _ => .error (create_rediserror ("Cant convert " ++ debug_graphvalue value ++ " to $t"))

/-- Model of `FromGraphValue for bool`. -/
def bool_from_graphvalue : ConvT Bool := fun value =>
  match value with
  | .Boolean val => .ok val
  | _ => .error (create_rediserror ("Cant convert " ++ debug_graphvalue value ++ " to bool"))

/-- Model of `FromGraphValue for ()`: always succeeds. -/
def unit_from_graphvalue : ConvT Unit := fun _ => .ok ()

/-- Model of `FromGraphValue for String`. -/
def string_from_graphvalue : ConvT String := fun value =>
  match value with
  | .String s => .ok s
  | _ => .error (create_rediserror ("Cant convert " ++ debug_graphvalue value ++ " to String"))

/-- Model of `FromGraphValue for GraphMap`. -/
def map_from_graphvalue : ConvT (List (String × GraphValue)) := fun value =>
  match value with
  | .Map m => .ok m
  | _ => .error (create_rediserror ("Cant convert " ++ debug_graphvalue value ++ " to GraphMap"))

/-- Model of `FromGraphValue for GraphPath`. -/
def path_from_graphvalue : ConvT GraphPath := fun value =>
  match value with
  | .Path p => .ok p
  | _ => .error (create_rediserror ("Cant convert " ++ debug_graphvalue value ++ " to GraphPath"))

/-- Model of `FromGraphValue for GeoPoint`. -/
def point_from_graphvalue : ConvT GeoPoint := fun value =>
  match value with
  | .Point p => .ok p
  | _ => .error (create_rediserror ("Cant convert " ++ debug_graphvalue value ++ " to GeoPoint"))

/-- Model of `FromGraphValue for Option<T>`: `Null` is absent, anything else
is delegated to the inner conversion (`?` propagates its error) and wrapped. -/
def option_from_graphvalue (conv : ConvT α) : ConvT (Option α) := fun value =>
  match value with
  | .Null => .ok none
  | val => (conv val).map some

/-- Model of `FromGraphValue for GraphValue` (the identity conversion). -/
def graphvalue_id_conv : ConvT GraphValue := fun value => .ok value

/-- Model of `GraphMap::get`: a missing key is `Ok(None)`; a present value is
converted at the `Option<T>` instance. -/
def graphmap_get (conv : ConvT α) (m : List (String × GraphValue)) (key : String) :
    Except RErr (Option α) :=
  match m.lookup key with
  | some val => option_from_graphvalue conv val
  | none => .ok none

/-- Model of `PropertyAccess::get_property_by_label_id`. -/
def get_property_by_label_id (conv : ConvT α) (properties : List (Int × GraphValue))
    (label_id : Int) : Except RErr (Option α) :=
  match properties.lookup label_id with
  | some val => option_from_graphvalue conv val
  | none => .ok none

/-- Model of `PropertyAccess::get_property_by_index`: `IndexMap`'s `Index`
panics on an out-of-range position. -/
def get_property_by_index (conv : ConvT α) (properties : List (Int × GraphValue))
    (idx : Nat) : Ret (Except RErr α) :=
  match properties.get? idx with
  | none => .panicked
  | some p => .ret (conv p.2)

/-! ## Fixed-arity tuple conversions (`from_graph_value_for_tuple!`).
The macro generates one implementation per arity 1..12; the embedding is the
macro body, generic over the per-position element conversions. -/

/-- A heterogeneous list of element conversions, one per tuple position. -/
inductive ConvList : List Type → Type 1 where
  | nil : ConvList []
  | cons {α : Type} {ts : List Type} : ConvT α → ConvList ts → ConvList (α :: ts)

/-- The (right-nested) product type of a tuple's positions. -/
def TupleOf : List Type → Type
  | [] => PUnit
  | α :: ts => α × TupleOf ts

/-- Left-to-right element conversion, short-circuiting at the first failing
element (the `items.remove(0)` loop of the macro body).  The arity guard of
`from_graph_value_for_tuple` makes the mismatch arms unreachable. -/
def run_convs : {ts : List Type} → ConvList ts → List GraphValue → Except RErr (TupleOf ts)
  | _, .nil, [] => .ok PUnit.unit
  | _, .cons c cs, x :: xs =>
    match c x with
    | .error e => .error e
    | .ok a =>
      match run_convs cs xs with
      | .error e => .error e
      | .ok r => .ok (a, r)
  | _, .nil, _ :: _ => .error (create_rediserror "unreachable: arity guard")
  | _, .cons _ _, [] => .error (create_rediserror "unreachable: arity guard")

/-- Model of the `FromGraphValue` implementation the tuple macro generates for
the tuple type named `tyName` (the `std::any::type_name` string) with element
conversions `cs`: requires `Array`, checks the length against the arity, then
converts left to right. -/
def from_graph_value_for_tuple {ts : List Type} (tyName : String) (cs : ConvList ts)
    (v : GraphValue) : Except RErr (TupleOf ts) :=
  match v with
  | .Array items =>
    if items.length ≠ ts.length then
      .error (create_rediserror ("Wrong length to create Tuple " ++ tyName ++
        " from [" ++ debug_graphvalue_list items ++ "]"))
    else run_convs cs items
  | _ => .error (create_rediserror ("Can not create Tuple from " ++ debug_graphvalue v))

/-! ## Response assembler (src/types.rs) -/

/-- Model of `GraphResponse<T>`: header names, one converted row per match,
and the raw statistics strings. -/
structure GraphResponse (α : Type) where
  header : List String
  data : List α
  statistics : List String
deriving DecidableEq

/-- Model of `GraphResponse::parse_header`: each header entry is decoded as an
`(i64, String)` pair of which only the name is kept — with `.unwrap()`, so a
malformed entry panics instead of returning an error. -/
def parse_header (header : List Value) : Ret (List String) :=
  match header with
  | [] => .ret []
  | v :: rest =>
    match pair_i64_string_from_redis v with
    | .error _ => .panicked
    | .ok p =>
      match parse_header rest with
      | .panicked => .panicked
      | .ret names => .ret (p.2 :: names)

/-- `FromRedisValue for Vec<Vec<GraphValue>>` (the row block of a reply). -/
def vecvec_graphvalue_from_redis (v : Value) : Except RErr (List (List GraphValue)) :=
  vec_from_redis vec_graphvalue_from_redis v

/-- Model of `GraphResponse::parse_response` for a row conversion `conv`
(the `FromGraphValue` impl of the row type `T`).  A 1-element sequence is
statistics only; a 3-element sequence decodes positionally as
`(Vec<Value>, Vec<Vec<GraphValue>>, Vec<String>)`, the header names are
extracted (panicking on a malformed header entry), and every row is wrapped
into one `Array` Graph Value and handed to `conv`; any other length is the
length-naming error, a non-sequence the fixed invalid-response error. -/
def parse_response (conv : ConvT α) (value : Value) : Ret (Except RErr (GraphResponse α)) :=
  match value with
  | .Bulk values =>
    match values with
    | [v0] =>
      .ret (match vec_string_from_redis v0 with
        | .error e => .error e
        | .ok statistics => .ok ⟨[], [], statistics⟩)
    | [v0, v1, v2] =>
      match vec_value_from_redis v0 with
      | .error e => .ret (.error e)
      | .ok header =>
        match vecvec_graphvalue_from_redis v1 with
        | .error e => .ret (.error e)
        | .ok temp =>
          match vec_string_from_redis v2 with
          | .error e => .ret (.error e)
          | .ok statistics =>
            match parse_header header with
            | .panicked => .panicked
            | .ret names =>
              match map_except (fun arr => conv (GraphValue.Array arr)) temp with
              | .error e => .ret (.error e)
              | .ok data => .ret (.ok ⟨names, data, statistics⟩)
    | l =>
      .ret (.error (create_rediserror ("Can't parse response of length " ++
        toString l.length ++ " to GraphResponse")))
  | _ => .ret (.error (create_rediserror "Invalid Response from Redis"))

/-- Model of `GraphStatistic` (src/types.rs). -/
inductive GraphStatistic where
  | LabelsAdded
  | NodesCreated
  | RelationshipsCreated
  | IndicesCreated
  | PropertiesSet
  | NodesDeleted
  | RelationshipsDeleted
  | IndicesDeleted
  | CachedExecution
  | ExecutionTime
deriving DecidableEq

/-- Model of `GraphStatistic::match_name`. -/
def GraphStatistic.match_name : GraphStatistic → String
  | .LabelsAdded => "Labels added"
  | .NodesCreated => "Nodes created"
  | .RelationshipsCreated => "Relationships created"
  | .IndicesCreated => "Indices created"
  | .PropertiesSet => "Properties set"
  | .NodesDeleted => "Nodes deleted"
  | .RelationshipsDeleted => "Relationships deleted"
  | .IndicesDeleted => "Indices deleted"
  | .CachedExecution => "Cached execution"
  | .ExecutionTime => "Query internal"

/-- Model of `GraphResponse::get_statistic` over the statistics strings: the
first line starting with the statistic's label is split at the first `": "`
(`?`: returning `None` when absent), the value is truncated at the first
following space, and parsed as f64 — with `.unwrap()`, so an unparsable
number panics. -/
def get_statistic (statistics : List String) (stat : GraphStatistic) : Ret (Option Rat) :=
  match statistics with
  | [] => .ret none
  | s :: rest =>
    if starts_with s stat.match_name then
      match split_once s ": " with
      | none => .ret none
      | some p =>
        let val := match split_once p.2 " " with
          | none => p.2
          | some q => q.1
        match parse_f64 val with
        | none => .panicked
        | some x => .ret (some x)
    else get_statistic rest stat

/-! ## Query builder (src/types.rs; the authoritative copy — src/query.rs is
not compiled by lib.rs) -/

/-- Model of `Parameter` (src/types.rs). -/
inductive Parameter where
  | String (s : String) : Parameter
  | Int (i : Int) : Parameter
  | Double (d : Rat) : Parameter

/-- Model of `GraphQuery` (src/types.rs). -/
structure GraphQuery where
  query : String
  params : List (String × Parameter)
  read_only : Bool

/-- Model of `GraphQuery::read_type`. -/
def GraphQuery.read_type (q : GraphQuery) : String :=
  if q.read_only then "GRAPH.RO_QUERY" else "GRAPH.QUERY"

/-- The one `name=value ` fragment `parse_params` pushes for a parameter. -/
def render_param (key : String) (value : Parameter) : String :=
  match value with
  | .Int int => key ++ "=" ++ toString int ++ " "
  | .Double double => key ++ "=" ++ f64_display double ++ " "
  | .String string => key ++ "=\"" ++ escape_default string ++ "\" "

/-- Model of `GraphQuery::parse_params`: empty parameter list renders nothing,
otherwise `"CYPHER "` and each `name=value ` fragment in insertion order. -/
def GraphQuery.parse_params (q : GraphQuery) : String :=
  if q.params.isEmpty then ""
  else q.params.foldl (fun prepend p => prepend ++ render_param p.1 p.2) "CYPHER "

/-- Model of `GraphQuery::construct_query`. -/
def GraphQuery.construct_query (q : GraphQuery) : String :=
  q.parse_params ++ q.query

/-! ## Dispatcher characterization.  `convert_body` restates the dispatcher's
body as a plain (non-recursive) definition; `convert_to_graphvalue_eq` proves
the two agree, which lets later proofs unfold the dispatcher freely. -/

/-- The dispatcher's body as a plain definition over the already-defined
decoders. -/
def convert_body (type_ : Int) (val : Value) : Except RErr GraphValue :=
  if type_ = VALUE_NODE then
    match val with
    | .Bulk [v0, v1, v2] =>
      node_arm (i64_from_redis v0) (vec_i64_from_redis v1) (parse_properties v2)
    | v => .error (create_rediserror ("Couldnt convert " ++ debug_value v ++ " to Node"))
  else if type_ = VALUE_EDGE then
    match val with
    | .Bulk [v0, v1, v2, v3, v4] =>
      rel_arm (i64_from_redis v0) (i64_from_redis v1) (i64_from_redis v2)
        (i64_from_redis v3) (parse_properties v4)
    | v => .error (create_rediserror ("Couldnt convert " ++ debug_value v ++ " to Relationship"))
  else if type_ = VALUE_PATH then
    match val with
    | .Bulk [a, b] => path_arm (graphvalue_from_redis a) (graphvalue_from_redis b)
    | _ => .error (invalid_type_error val "Not a 2-tuple.")
  else if type_ = VALUE_MAP then
    match val with
    | .Bulk values => map_arm (map_pairs values)
    | v => .error (create_rediserror ("Couldnt convert " ++ debug_value v ++ " to GraphMap"))
  else if type_ = VALUE_POINT then point_arm (point_from_redis val)
  else if type_ = VALUE_NULL then .ok GraphValue.Null
  else if type_ = VALUE_DOUBLE then double_arm (f64_from_redis val)
  else if type_ = VALUE_INTEGER then integer_arm (i64_from_redis val)
  else if type_ = VALUE_ARRAY then
    match val with
    | .Bulk l => array_arm (gv_list_from_redis l)
    | .Nil => .ok (GraphValue.Array [])
    | _ => .error (invalid_type_error val "Response type not vector compatible.")
  else if type_ = VALUE_STRING then string_arm (string_from_redis val)
  else if type_ = VALUE_BOOLEAN then boolean_arm (string_from_redis val) val
  else .ok (GraphValue.Unknown val)

/-- The recursive dispatcher agrees with its plain body. -/
theorem convert_to_graphvalue_eq (t : Int) (v : Value) :
    convert_to_graphvalue t v = convert_body t v := by
  cases v with
  | Bulk l =>
    rcases l with _ | ⟨v0, _ | ⟨v1, _ | ⟨v2, _ | ⟨v3, _ | ⟨v4, _ | ⟨v5, rest⟩⟩⟩⟩⟩⟩ <;> rfl
  | Nil => rfl
  | Int i => rfl
  | Data s => rfl
  | Status s => rfl
  | Okay => rfl

/-! Arm/decoder bridging lemmas. -/

theorem node_arm_eq (x : Except RErr Int) (y : Except RErr (List Int))
    (z : Except RErr (List (Int × GraphValue))) :
    node_arm x y z = (node_res x y z).map GraphValue.Node := by
  cases x <;> cases y <;> cases z <;> rfl

theorem rel_arm_eq (x y z w : Except RErr Int)
    (u : Except RErr (List (Int × GraphValue))) :
    rel_arm x y z w u = (rel_res x y z w u).map GraphValue.Relation := by
  cases x <;> cases y <;> cases z <;> cases w <;> cases u <;> rfl

theorem path_arm_eq (x y : Except RErr GraphValue) :
    path_arm x y = (path_res x y).map GraphValue.Path := by
  cases x with
  | error e => rfl
  | ok gn =>
    cases y with
    | error e => rfl
    | ok gr =>
      simp only [path_arm, path_res]
      cases h3 : vec_from_graphvalue node_from_graphvalue gn <;> simp only [h3]
      · rfl
      · cases h4 : vec_from_graphvalue rel_from_graphvalue gr <;> simp only [h4] <;> rfl

theorem map_arm_eq (x : Except RErr (List (String × GraphValue))) :
    map_arm x = (map_res x).map GraphValue.Map := by
  cases x <;> rfl

theorem double_arm_eq (x : Except RErr Rat) :
    double_arm x = x.map GraphValue.Double := by
  cases x <;> rfl

theorem integer_arm_eq (x : Except RErr Int) :
    integer_arm x = x.map GraphValue.Integer := by
  cases x <;> rfl

theorem string_arm_eq (x : Except RErr String) :
    string_arm x = x.map GraphValue.String := by
  cases x <;> rfl

theorem array_arm_eq (x : Except RErr (List GraphValue)) :
    array_arm x = x.map GraphValue.Array := by
  cases x <;> rfl

theorem point_arm_eq (x : Except RErr GeoPoint) :
    point_arm x = x.map GraphValue.Point := by
  cases x <;> rfl

/-! Per-tag bridging equations for the dispatcher. -/

theorem convert_tag0_eq (v : Value) :
    convert_to_graphvalue 0 v = .ok (GraphValue.Unknown v) := by
  cases v <;> rfl

theorem convert_tag1_eq (v : Value) :
    convert_to_graphvalue 1 v = .ok GraphValue.Null := by
  cases v <;> rfl

theorem convert_tag2_eq (v : Value) :
    convert_to_graphvalue 2 v = (string_from_redis v).map GraphValue.String := by
  have h1 : convert_to_graphvalue 2 v = string_arm (string_from_redis v) := by
    cases v <;> rfl
  rw [h1, string_arm_eq]

theorem convert_tag3_eq (v : Value) :
    convert_to_graphvalue 3 v = (i64_from_redis v).map GraphValue.Integer := by
  have h1 : convert_to_graphvalue 3 v = integer_arm (i64_from_redis v) := by
    cases v <;> rfl
  rw [h1, integer_arm_eq]

theorem convert_tag4_eq (v : Value) :
    convert_to_graphvalue 4 v = boolean_arm (string_from_redis v) v := by
  cases v <;> rfl

theorem convert_tag5_eq (v : Value) :
    convert_to_graphvalue 5 v = (f64_from_redis v).map GraphValue.Double := by
  have h1 : convert_to_graphvalue 5 v = double_arm (f64_from_redis v) := by
    cases v <;> rfl
  rw [h1, double_arm_eq]

theorem convert_tag6_eq (v : Value) :
    convert_to_graphvalue 6 v = (vec_graphvalue_from_redis v).map GraphValue.Array := by
  cases v with
  | Bulk l => exact array_arm_eq (gv_list_from_redis l)
  | Nil => rfl
  | Int i => rfl
  | Data s => rfl
  | Status s => rfl
  | Okay => rfl

theorem convert_tag7_eq (v : Value) :
    convert_to_graphvalue 7 v = (rel_from_redis v).map GraphValue.Relation := by
  cases v with
  | Bulk l =>
    rcases l with _ | ⟨v0, _ | ⟨v1, _ | ⟨v2, _ | ⟨v3, _ | ⟨v4, _ | ⟨v5, rest⟩⟩⟩⟩⟩⟩ <;> try rfl
    exact rel_arm_eq (i64_from_redis v0) (i64_from_redis v1) (i64_from_redis v2)
      (i64_from_redis v3) (parse_properties v4)
  | Nil => rfl
  | Int i => rfl
  | Data s => rfl
  | Status s => rfl
  | Okay => rfl

theorem convert_tag8_eq (v : Value) :
    convert_to_graphvalue 8 v = (node_from_redis v).map GraphValue.Node := by
  cases v with
  | Bulk l =>
    rcases l with _ | ⟨v0, _ | ⟨v1, _ | ⟨v2, _ | ⟨v3, rest⟩⟩⟩⟩ <;> try rfl
    exact node_arm_eq (i64_from_redis v0) (vec_i64_from_redis v1) (parse_properties v2)
  | Nil => rfl
  | Int i => rfl
  | Data s => rfl
  | Status s => rfl
  | Okay => rfl

theorem convert_tag9_eq (v : Value) :
    convert_to_graphvalue 9 v = (path_from_redis v).map GraphValue.Path := by
  cases v with
  | Bulk l =>
    rcases l with _ | ⟨v0, _ | ⟨v1, _ | ⟨v2, rest⟩⟩⟩ <;> try rfl
    exact path_arm_eq (graphvalue_from_redis v0) (graphvalue_from_redis v1)
  | Nil => rfl
  | Int i => rfl
  | Data s => rfl
  | Status s => rfl
  | Okay => rfl

theorem convert_tag10_eq (v : Value) :
    convert_to_graphvalue 10 v = (map_from_redis v).map GraphValue.Map := by
  cases v with
  | Bulk l => exact map_arm_eq (map_pairs l)
  | Nil => rfl
  | Int i => rfl
  | Data s => rfl
  | Status s => rfl
  | Okay => rfl

theorem convert_tag11_eq (v : Value) :
    convert_to_graphvalue 11 v = (point_from_redis v).map GraphValue.Point := by
  have h1 : convert_to_graphvalue 11 v = point_arm (point_from_redis v) := by
    cases v <;> rfl
  rw [h1, point_arm_eq]

/-- Any tag outside 0..11 falls through to the `Unknown` fallback. -/
theorem convert_outside_eq (t : Int) (v : Value) (h : t < 0 ∨ 11 < t) :
    convert_to_graphvalue t v = .ok (GraphValue.Unknown v) := by
  rw [convert_to_graphvalue_eq]
  unfold convert_body
  rw [if_neg (by unfold VALUE_NODE; omega), if_neg (by unfold VALUE_EDGE; omega),
    if_neg (by unfold VALUE_PATH; omega), if_neg (by unfold VALUE_MAP; omega),
    if_neg (by unfold VALUE_POINT; omega), if_neg (by unfold VALUE_NULL; omega),
    if_neg (by unfold VALUE_DOUBLE; omega), if_neg (by unfold VALUE_INTEGER; omega),
    if_neg (by unfold VALUE_ARRAY; omega), if_neg (by unfold VALUE_STRING; omega),
    if_neg (by unfold VALUE_BOOLEAN; omega)]

/-- The tag the fixed wire table assigns to each `GraphValue` variant
(0=Unknown, 1=Null, 2=String, 3=Integer, 4=Boolean, 5=Double, 6=Array,
7=Edge/Relation, 8=Node, 9=Path, 10=Map, 11=Point). -/
def variant_tag : GraphValue → Int
  | .Unknown _ => 0
  | .Null => 1
  | .String _ => 2
  | .Integer _ => 3
  | .Boolean _ => 4
  | .Double _ => 5
  | .Array _ => 6
  | .Relation _ => 7
  | .Node _ => 8
  | .Path _ => 9
  | .Map _ => 10
  | .Point _ => 11

theorem except_map_ok {γ β : Type} (x : Except RErr γ) (f : γ → β) (g : β)
    (h : x.map f = .ok g) : ∃ a, x = .ok a ∧ g = f a := by
  cases x with
  | error e => simp [Except.map] at h
  | ok a => exact ⟨a, rfl, by simpa [Except.map] using h.symm⟩

/-- C1: the dispatcher realizes the fixed tag table: each tag 0..11 with a
correctly shaped payload produces exactly its table variant (the per-tag
equations show the result is the payload decode mapped into that one
variant), a successful decode under tag t in 0..11 always carries the variant
whose table index is t (hence no two tags in 0..11 produce the same variant),
every tag in 0..11 has a correctly shaped payload, and every tag outside 0..11
succeeds with `Unknown` wrapping the untouched raw value. -/
theorem C1_tag_dispatch_table :
    (∀ v, convert_to_graphvalue 0 v = .ok (GraphValue.Unknown v))
    ∧ (∀ v, convert_to_graphvalue 1 v = .ok GraphValue.Null)
    ∧ (∀ v, convert_to_graphvalue 2 v = (string_from_redis v).map GraphValue.String)
    ∧ (∀ v, convert_to_graphvalue 3 v = (i64_from_redis v).map GraphValue.Integer)
    ∧ (∀ v, convert_to_graphvalue 4 v = boolean_arm (string_from_redis v) v)
    ∧ (∀ v, convert_to_graphvalue 5 v = (f64_from_redis v).map GraphValue.Double)
    ∧ (∀ v, convert_to_graphvalue 6 v = (vec_graphvalue_from_redis v).map GraphValue.Array)
    ∧ (∀ v, convert_to_graphvalue 7 v = (rel_from_redis v).map GraphValue.Relation)
    ∧ (∀ v, convert_to_graphvalue 8 v = (node_from_redis v).map GraphValue.Node)
    ∧ (∀ v, convert_to_graphvalue 9 v = (path_from_redis v).map GraphValue.Path)
    ∧ (∀ v, convert_to_graphvalue 10 v = (map_from_redis v).map GraphValue.Map)
    ∧ (∀ v, convert_to_graphvalue 11 v = (point_from_redis v).map GraphValue.Point)
    ∧ (∀ t v g, 0 ≤ t → t ≤ 11 → convert_to_graphvalue t v = .ok g → variant_tag g = t)
    ∧ (∀ t, 0 ≤ t → t ≤ 11 → ∃ v g, convert_to_graphvalue t v = .ok g ∧ variant_tag g = t)
    ∧ (∀ t v, t < 0 ∨ 11 < t → convert_to_graphvalue t v = .ok (GraphValue.Unknown v)) := by
  refine ⟨convert_tag0_eq, convert_tag1_eq, convert_tag2_eq, convert_tag3_eq,
    convert_tag4_eq, convert_tag5_eq, convert_tag6_eq, convert_tag7_eq, convert_tag8_eq,
    convert_tag9_eq, convert_tag10_eq, convert_tag11_eq, ?_, ?_, convert_outside_eq⟩
  · intro t v g h0 h11 hg
    interval_cases t
    · rw [convert_tag0_eq] at hg
      cases hg
      rfl
    · rw [convert_tag1_eq] at hg
      cases hg
      rfl
    · rw [convert_tag2_eq] at hg
      obtain ⟨a, -, rfl⟩ := except_map_ok _ _ _ hg
      rfl
    · rw [convert_tag3_eq] at hg
      obtain ⟨a, -, rfl⟩ := except_map_ok _ _ _ hg
      rfl
    · rw [convert_tag4_eq] at hg
      unfold boolean_arm at hg
      cases hs : string_from_redis v with
      | error e => rw [hs] at hg; cases hg
      | ok s =>
        rw [hs] at hg
        have hg2 : (if s = "true" then Except.ok (GraphValue.Boolean true)
            else if s = "false" then Except.ok (GraphValue.Boolean false)
            else Except.error
              (create_rediserror ("Cant convert " ++ debug_value v ++ " to bool"))) =
            Except.ok g := hg
        by_cases ht : s = "true"
        · rw [if_pos ht] at hg2
          cases hg2
          rfl
        · rw [if_neg ht] at hg2
          by_cases hf : s = "false"
          · rw [if_pos hf] at hg2
            cases hg2
            rfl
          · rw [if_neg hf] at hg2
            cases hg2
    · rw [convert_tag5_eq] at hg
      obtain ⟨a, -, rfl⟩ := except_map_ok _ _ _ hg
      rfl
    · rw [convert_tag6_eq] at hg
      obtain ⟨a, -, rfl⟩ := except_map_ok _ _ _ hg
      rfl
    · rw [convert_tag7_eq] at hg
      obtain ⟨a, -, rfl⟩ := except_map_ok _ _ _ hg
      rfl
    · rw [convert_tag8_eq] at hg
      obtain ⟨a, -, rfl⟩ := except_map_ok _ _ _ hg
      rfl
    · rw [convert_tag9_eq] at hg
      obtain ⟨a, -, rfl⟩ := except_map_ok _ _ _ hg
      rfl
    · rw [convert_tag10_eq] at hg
      obtain ⟨a, -, rfl⟩ := except_map_ok _ _ _ hg
      rfl
    · rw [convert_tag11_eq] at hg
      obtain ⟨a, -, rfl⟩ := except_map_ok _ _ _ hg
      rfl
  · intro t h0 h11
    interval_cases t
    · exact ⟨Value.Nil, GraphValue.Unknown Value.Nil, rfl, rfl⟩
    · exact ⟨Value.Nil, GraphValue.Null, rfl, rfl⟩
    · exact ⟨Value.Data "a", GraphValue.String "a", rfl, rfl⟩
    · exact ⟨Value.Int 7, GraphValue.Integer 7, rfl, rfl⟩
    · exact ⟨Value.Data "true", GraphValue.Boolean true, rfl, rfl⟩
    · exact ⟨Value.Int 1, GraphValue.Double (mkRat 1 1), rfl, rfl⟩
    · exact ⟨Value.Nil, GraphValue.Array [], rfl, rfl⟩
    · exact ⟨Value.Bulk [Value.Int 1, Value.Int 2, Value.Int 3, Value.Int 4, Value.Nil],
        GraphValue.Relation (Relationship.mk 1 2 3 4 []), rfl, rfl⟩
    · exact ⟨Value.Bulk [Value.Int 5, Value.Nil, Value.Nil],
        GraphValue.Node (Node.mk 5 [] []), rfl, rfl⟩
    · exact ⟨Value.Bulk [Value.Bulk [Value.Int 6, Value.Nil], Value.Bulk [Value.Int 6, Value.Nil]],
        GraphValue.Path (GraphPath.mk [] []), rfl, rfl⟩
    · exact ⟨Value.Bulk [], GraphValue.Map [], rfl, rfl⟩
    · exact ⟨Value.Bulk [Value.Int 1, Value.Int 2],
        GraphValue.Point ⟨mkRat 1 1, mkRat 2 1⟩, rfl, rfl⟩

/-- C1 witness: the theorem applied at tag 3 / raw `Int 7` (a correctly
shaped Integer payload) and at the out-of-table tag 12. -/
theorem C1_tag_dispatch_table_witness :
    variant_tag (GraphValue.Integer 7) = 3
    ∧ convert_to_graphvalue 12 Value.Nil = .ok (GraphValue.Unknown Value.Nil) := by
  obtain ⟨h0, h1, h2, h3, h4, h5, h6, h7, h8, h9, h10, h11, hvar, hex, hout⟩ :=
    C1_tag_dispatch_table
  exact ⟨hvar 3 (Value.Int 7) (GraphValue.Integer 7) (by norm_num) (by norm_num) (by rfl),
    hout 12 Value.Nil (Or.inr (by norm_num))⟩

/-- C9: for tag 4 the dispatcher decodes the raw wire value as a string and
matches it literally: `"true"` yields `Boolean true`, `"false"` yields
`Boolean false`, any other text yields a decode error; a failure of the
string decode itself propagates. -/
theorem C9_boolean_tag_decode :
    (∀ v s, string_from_redis v = .ok s →
      convert_to_graphvalue 4 v =
        (if s = "true" then .ok (GraphValue.Boolean true)
         else if s = "false" then .ok (GraphValue.Boolean false)
         else .error (create_rediserror ("Cant convert " ++ debug_value v ++ " to bool"))))
    ∧ (∀ v e, string_from_redis v = .error e →
        convert_to_graphvalue 4 v = .error e) := by
  constructor
  · intro v s h
    rw [convert_tag4_eq, h]
    rfl
  · intro v e h
    rw [convert_tag4_eq, h]
    rfl

/-- C9 witness: the three literal cases at concrete wire strings. -/
theorem C9_boolean_tag_decode_witness :
    convert_to_graphvalue 4 (Value.Data "true") = .ok (GraphValue.Boolean true)
    ∧ convert_to_graphvalue 4 (Value.Data "false") = .ok (GraphValue.Boolean false)
    ∧ convert_to_graphvalue 4 (Value.Data "yes") =
        .error (create_rediserror "Cant convert Data([121, 101, 115]) to bool") :=
  ⟨(C9_boolean_tag_decode.1 (Value.Data "true") "true" rfl).trans (by rfl),
   (C9_boolean_tag_decode.1 (Value.Data "false") "false" rfl).trans (by rfl),
   (C9_boolean_tag_decode.1 (Value.Data "yes") "yes" rfl).trans (by rfl)⟩

/-- C6 (the part the code does implement): `FromGraphValue for f64` accepts
exactly the `Double` variant.  There is no `FromGraphValue for f32` in the
compiled crate (the float macro was never applied; see RESULTS). -/
theorem C6_f64_only_double :
    (∀ q, f64_from_graphvalue (GraphValue.Double q) = .ok q)
    ∧ (∀ v, (∃ x, f64_from_graphvalue v = .ok x) → ∃ q, v = GraphValue.Double q) := by
  constructor
  · intro q
    rfl
  · intro v hx
    obtain ⟨x, hx⟩ := hx
    cases v with
    | Double d => exact ⟨d, rfl⟩
    | Unknown w => simp [f64_from_graphvalue] at hx
    | Map m => simp [f64_from_graphvalue] at hx
    | Point p => simp [f64_from_graphvalue] at hx
    | Path p => simp [f64_from_graphvalue] at hx
    | Node n => simp [f64_from_graphvalue] at hx
    | Relation r => simp [f64_from_graphvalue] at hx
    | Array l => simp [f64_from_graphvalue] at hx
    | Integer i => simp [f64_from_graphvalue] at hx
    | String s => simp [f64_from_graphvalue] at hx
    | Boolean b => simp [f64_from_graphvalue] at hx
    | Null => simp [f64_from_graphvalue] at hx

/-- C6 witness: a Double converts, and a successful conversion of
`Integer 1` is impossible. -/
theorem C6_f64_only_double_witness :
    f64_from_graphvalue (GraphValue.Double 1) = .ok 1
    ∧ (∃ q, GraphValue.Double 1 = GraphValue.Double q) :=
  ⟨C6_f64_only_double.1 1, C6_f64_only_double.2 (GraphValue.Double 1) ⟨1, rfl⟩⟩

/-- C5: the three cited operations panic on malformed input instead of
returning an error: a malformed header entry (`.unwrap()` in `parse_header`),
an unparsable statistic number (`.unwrap()` in `get_statistic`), and an
out-of-range position (`IndexMap` indexing in `get_property_by_index`). -/
theorem C5_core_panics :
    parse_header [Value.Int 5] = Ret.panicked
    ∧ get_statistic ["Nodes created: x"] GraphStatistic.NodesCreated = Ret.panicked
    ∧ get_property_by_index graphvalue_id_conv [] 0 = Ret.panicked := by
  exact ⟨rfl, rfl, rfl⟩

/-- The `Option<T>` instance maps every non-`Null` value through the inner
conversion. -/
theorem option_from_graphvalue_not_null (conv : ConvT α) (v : GraphValue)
    (hv : v ≠ GraphValue.Null) :
    option_from_graphvalue conv v = (conv v).map some := by
  cases v <;> first | exact absurd rfl hv | rfl

/-- C10: keyed lookup (`GraphMap::get` and
`PropertyAccess::get_property_by_label_id`) returns `Ok(None)` both for a
missing key and for a key stored as `Null`; a present non-`Null` value is
converted, success wrapped in `Some`, a conversion failure propagated. -/
theorem C10_keyed_lookup {α : Type} (conv : ConvT α) :
    (∀ (m : List (String × GraphValue)) k, m.lookup k = none →
      graphmap_get conv m k = .ok none)
    ∧ (∀ (m : List (String × GraphValue)) k, m.lookup k = some GraphValue.Null →
      graphmap_get conv m k = .ok none)
    ∧ (∀ (m : List (String × GraphValue)) k v, m.lookup k = some v →
      v ≠ GraphValue.Null → graphmap_get conv m k = (conv v).map some)
    ∧ (∀ (props : List (Int × GraphValue)) i, props.lookup i = none →
      get_property_by_label_id conv props i = .ok none)
    ∧ (∀ (props : List (Int × GraphValue)) i, props.lookup i = some GraphValue.Null →
      get_property_by_label_id conv props i = .ok none)
    ∧ (∀ (props : List (Int × GraphValue)) i v, props.lookup i = some v →
      v ≠ GraphValue.Null → get_property_by_label_id conv props i = (conv v).map some) := by
  refine ⟨?_, ?_, ?_, ?_, ?_, ?_⟩
  · intro m k h
    simp [graphmap_get, h]
  · intro m k h
    simp [graphmap_get, h, option_from_graphvalue]
  · intro m k v h hv
    simp [graphmap_get, h]
    exact option_from_graphvalue_not_null conv v hv
  · intro props i h
    simp [get_property_by_label_id, h]
  · intro props i h
    simp [get_property_by_label_id, h, option_from_graphvalue]
  · intro props i v h hv
    simp [get_property_by_label_id, h]
    exact option_from_graphvalue_not_null conv v hv

/-- C10 witness: over the map `{"a": Integer 5, "b": Null}` with the u8
conversion: a present convertible value, a stored Null, a missing key, and a
present value that fails conversion. -/
theorem C10_keyed_lookup_witness :
    graphmap_get u8_from_graphvalue
      [("a", GraphValue.Integer 5), ("b", GraphValue.Null)] "a" = .ok (some 5)
    ∧ graphmap_get u8_from_graphvalue
      [("a", GraphValue.Integer 5), ("b", GraphValue.Null)] "b" = .ok none
    ∧ graphmap_get u8_from_graphvalue
      [("a", GraphValue.Integer 5), ("b", GraphValue.Null)] "c" = .ok none
    ∧ get_property_by_label_id u8_from_graphvalue
      [(10, GraphValue.String "x")] 10 =
        .error (create_rediserror "Cant convert String(\"x\") to u8") := by
  refine ⟨?_, ?_, ?_, ?_⟩
  · exact ((C10_keyed_lookup u8_from_graphvalue).2.2.1 _ "a" (GraphValue.Integer 5)
      (by rfl) (by intro h; cases h)).trans (by rfl)
  · exact (C10_keyed_lookup u8_from_graphvalue).2.1 _ "b" (by rfl)
  · exact (C10_keyed_lookup u8_from_graphvalue).1 _ "c" (by rfl)
  · exact ((C10_keyed_lookup u8_from_graphvalue).2.2.2.2.2 _ 10 (GraphValue.String "x")
      (by rfl) (by intro h; cases h)).trans (by rfl)

/-- C7: `get_statistic` scans the statistics strings in order for the first
one starting with the statistic's fixed label; on a match it takes the
substring after the first `": "`, truncates it at the first following space,
parses the remainder as a floating-point number and returns it; when no line
starts with the label it returns `None`.  `NodesCreated` over
`["Nodes created: 3"]` returns 3. -/
theorem C7_get_statistic :
    (∀ (stats : List String) (stat : GraphStatistic),
      (∀ s ∈ stats, starts_with s stat.match_name = false) →
      get_statistic stats stat = .ret none)
    ∧ (∀ (stat : GraphStatistic) (l1 : List String) (s : String) (l2 : List String)
        (a b : String) (q : Rat),
      (∀ x ∈ l1, starts_with x stat.match_name = false) →
      starts_with s stat.match_name = true →
      split_once s ": " = some (a, b) →
      parse_f64 (match split_once b " " with | none => b | some p => p.1) = some q →
      get_statistic (l1 ++ s :: l2) stat = .ret (some q))
    ∧ get_statistic ["Nodes created: 3"] GraphStatistic.NodesCreated = .ret (some 3) := by
  refine ⟨?_, ?_, rfl⟩
  · intro stats stat h
    induction stats with
    | nil => rfl
    | cons s rest ih =>
      have hs := h s (List.mem_cons_self s rest)
      simp only [get_statistic, hs]
      simp only [Bool.false_eq_true, if_false]
      exact ih fun x hx => h x (List.mem_cons_of_mem s hx)
  · intro stat l1 s l2 a b q hl1 hs hsplit hparse
    induction l1 with
    | nil =>
      simp only [List.nil_append, get_statistic, hs, if_true, hsplit]
      simp only [hparse]
    | cons x rest ih =>
      have hx := hl1 x (List.mem_cons_self x rest)
      simp only [List.cons_append, get_statistic, hx]
      simp only [Bool.false_eq_true, if_false]
      exact ih fun y hy => hl1 y (List.mem_cons_of_mem x hy)

/-- C7 witness: the spec's concrete example, through the scan clause of the
theorem. -/
theorem C7_get_statistic_witness :
    get_statistic ["Nodes created: 3"] GraphStatistic.NodesCreated = .ret (some 3) :=
  C7_get_statistic.2.1 GraphStatistic.NodesCreated [] "Nodes created: 3" []
    "Nodes created" "3" 3 (by intro x hx; cases hx) (by rfl) (by rfl) (by rfl)

/-- Restated from the claim's words, for comparison with the source's
`parse_params`: `"CYPHER "` followed by one `name=value ` fragment per
parameter in insertion order. -/
def render_params_spec (params : List (String × Parameter)) : String :=
  "CYPHER " ++ (params.map fun p => render_param p.1 p.2).foldr (· ++ ·) ""

theorem foldl_render (ps : List (String × Parameter)) (acc : String) :
    ps.foldl (fun prepend p => prepend ++ render_param p.1 p.2) acc
      = acc ++ (ps.map fun p => render_param p.1 p.2).foldr (· ++ ·) "" := by
  induction ps generalizing acc with
  | nil => simp [List.foldl_nil, List.map_nil, List.foldr_nil]
  | cons p rest ih =>
    simp only [List.foldl_cons, List.map_cons, List.foldr_cons]
    rw [ih, String.append_assoc]

/-- C4: with no parameters `construct_query` returns the template unchanged;
with parameters it is `"CYPHER "`, the `name=value ` fragments in insertion
order (each followed by a space), then the template body verbatim; `String`
parameters are wrapped in double quotes around their `escape_default` form. -/
theorem C4_construct_query :
    (∀ q : GraphQuery, q.params = [] → q.construct_query = q.query)
    ∧ (∀ q : GraphQuery, q.params ≠ [] →
        q.construct_query = render_params_spec q.params ++ q.query)
    ∧ (∀ k i, render_param k (Parameter.Int i) = k ++ "=" ++ toString i ++ " ")
    ∧ (∀ k d, render_param k (Parameter.Double d) = k ++ "=" ++ f64_display d ++ " ")
    ∧ (∀ k s, render_param k (Parameter.String s) =
        k ++ "=\"" ++ escape_default s ++ "\" ") := by
  refine ⟨?_, ?_, fun k i => rfl, fun k d => rfl, fun k s => rfl⟩
  · intro q h
    simp [GraphQuery.construct_query, GraphQuery.parse_params, h]
  · intro q h
    simp only [GraphQuery.construct_query, GraphQuery.parse_params]
    rw [if_neg (by simpa [List.isEmpty_iff] using h)]
    rw [foldl_render]
    rfl

/-- C4 witness: the spec's example query with one escaped string parameter,
and an unparameterized query. -/
theorem C4_construct_query_witness :
    GraphQuery.construct_query
        ⟨"Return $a", [("a", Parameter.String "x\"y")], false⟩ =
      "CYPHER a=\"x\\\"y\" Return $a"
    ∧ GraphQuery.construct_query ⟨"Return 1", [], true⟩ = "Return 1" :=
  ⟨(C4_construct_query.2.1 ⟨"Return $a", [("a", Parameter.String "x\"y")], false⟩
      (by simp)).trans (by rfl),
   C4_construct_query.1 ⟨"Return 1", [], true⟩ rfl⟩

/-- C2 (amended): a 1-element sequence decodes its single element as the
statistics list with empty header and data; a 3-element sequence decodes
positionally, keeps the names of the header pairs, wraps each row into one
`Array` Graph Value for the row conversion, and takes element 2 as the
statistics strings; every other sequence length is an error naming that
length; a non-sequence top level is the fixed error
`"Invalid Response from Redis"`, which names no length. -/
theorem C2_parse_response {α : Type} (conv : ConvT α) :
    (∀ v0, parse_response conv (Value.Bulk [v0]) =
      .ret ((vec_string_from_redis v0).map fun stats => GraphResponse.mk [] [] stats))
    ∧ (∀ v0 v1 v2 header temp stats names,
      vec_value_from_redis v0 = .ok header →
      vecvec_graphvalue_from_redis v1 = .ok temp →
      vec_string_from_redis v2 = .ok stats →
      parse_header header = .ret names →
      parse_response conv (Value.Bulk [v0, v1, v2]) =
        .ret ((map_except (fun arr => conv (GraphValue.Array arr)) temp).map
          fun data => GraphResponse.mk names data stats))
    ∧ (∀ l : List Value, l.length ≠ 1 → l.length ≠ 3 →
      parse_response conv (Value.Bulk l) = .ret (.error (create_rediserror
        ("Can't parse response of length " ++ toString l.length ++ " to GraphResponse"))))
    ∧ (∀ v, (∀ l, v ≠ Value.Bulk l) →
      parse_response conv v = .ret (.error (create_rediserror "Invalid Response from Redis"))) := by
  refine ⟨?_, ?_, ?_, ?_⟩
  · intro v0
    cases h : vec_string_from_redis v0 <;> simp [parse_response, h, Except.map]
  · intro v0 v1 v2 header temp stats names h1 h2 h3 h4
    cases h5 : map_except (fun arr => conv (GraphValue.Array arr)) temp <;>
      simp [parse_response, h1, h2, h3, h4, h5, Except.map]
  · intro l h1 h3
    rcases l with _ | ⟨a, _ | ⟨b, _ | ⟨c, _ | ⟨d, rest⟩⟩⟩⟩
    · rfl
    · simp at h1
    · rfl
    · simp at h3
    · rfl
  · intro v h
    cases v with
    | Bulk l => exact absurd rfl (h l)
    | Nil => rfl
    | Int i => rfl
    | Data s => rfl
    | Status s => rfl
    | Okay => rfl

/-- C2 counterexample to the claim as stated: a non-sequence top-level reply
returns the fixed error `"Invalid Response from Redis"`, a message that
contains no digits and hence does not name the unexpected length. -/
theorem C2_parse_response_counterexample :
    parse_response graphvalue_id_conv (Value.Int 0) =
      .ret (.error (create_rediserror "Invalid Response from Redis"))
    ∧ (("Invalid Response from Redis").data.any Char.isDigit) = false :=
  ⟨rfl, by decide⟩

/-- C2 witness: a full 3-element reply (one header column, one row of one
integer cell, one statistics line), and a 5-element reply naming its length. -/
theorem C2_parse_response_witness :
    parse_response graphvalue_id_conv
      (Value.Bulk [Value.Bulk [Value.Bulk [Value.Int 1, Value.Data "name"]],
        Value.Bulk [Value.Bulk [Value.Bulk [Value.Int 3, Value.Int 4]]],
        Value.Bulk [Value.Data "Nodes created: 1"]]) =
      .ret (.ok (GraphResponse.mk ["name"] [GraphValue.Array [GraphValue.Integer 4]]
        ["Nodes created: 1"]))
    ∧ parse_response graphvalue_id_conv
        (Value.Bulk [Value.Nil, Value.Nil, Value.Nil, Value.Nil, Value.Nil]) =
      .ret (.error (create_rediserror "Can't parse response of length 5 to GraphResponse")) :=
  ⟨((C2_parse_response graphvalue_id_conv).2.1
      (Value.Bulk [Value.Bulk [Value.Int 1, Value.Data "name"]])
      (Value.Bulk [Value.Bulk [Value.Bulk [Value.Int 3, Value.Int 4]]])
      (Value.Bulk [Value.Data "Nodes created: 1"])
      [Value.Bulk [Value.Int 1, Value.Data "name"]]
      [[GraphValue.Integer 4]] ["Nodes created: 1"] ["name"]
      rfl rfl rfl rfl).trans (by rfl),
   ((C2_parse_response graphvalue_id_conv).2.2.1
      [Value.Nil, Value.Nil, Value.Nil, Value.Nil, Value.Nil]
      (by decide) (by decide)).trans (by rfl)⟩

/-- Elementwise success of a converter list on an item list (same length,
every position converts). -/
def ConvsOk : {ts : List Type} → ConvList ts → List GraphValue → Prop
  | _, .nil, [] => True
  | _, .cons c cs, x :: xs => (∃ a, c x = .ok a) ∧ ConvsOk cs xs
  | _, .nil, _ :: _ => False
  | _, .cons _ _, [] => False

/-- The error of the first failing element, consumed left to right. -/
def first_error : {ts : List Type} → ConvList ts → List GraphValue → Option RErr
  | _, .cons c cs, x :: xs =>
    match c x with
    | .error e => some e
    | .ok _ => first_error cs xs
  | _, _, _ => none

theorem run_convs_ok_iff {ts : List Type} (cs : ConvList ts) (items : List GraphValue) :
    (∃ r, run_convs cs items = .ok r) ↔ ConvsOk cs items := by
  induction cs generalizing items with
  | nil =>
    cases items with
    | nil => simp [run_convs, ConvsOk]
    | cons x xs => simp [run_convs, ConvsOk]
  | cons c cs ih =>
    cases items with
    | nil => simp [run_convs, ConvsOk]
    | cons x xs =>
      simp only [run_convs, ConvsOk]
      cases hc : c x with
      | error e => simp [hc]
      | ok a =>
        cases hr : run_convs cs xs with
        | error e =>
          simp only [hc, hr]
          constructor
          · rintro ⟨r, hr2⟩
            cases hr2
          · rintro ⟨-, hok⟩
            exact absurd ((ih xs).mpr hok) (by simp [hr])
        | ok r =>
          simp only [hc, hr]
          constructor
          · intro _
            exact ⟨⟨a, rfl⟩, (ih xs).mp ⟨r, hr⟩⟩
          · intro _
            exact ⟨(a, r), rfl⟩

theorem run_convs_first_error {ts : List Type} (cs : ConvList ts)
    (items : List GraphValue) (e : RErr) (hf : first_error cs items = some e) :
    run_convs cs items = .error e := by
  induction cs generalizing items with
  | nil =>
    cases items with
    | nil => simp [first_error] at hf
    | cons x xs => simp [first_error] at hf
  | cons c cs ih =>
    cases items with
    | nil => simp [first_error] at hf
    | cons x xs =>
      simp only [first_error] at hf
      cases hc : c x with
      | error e2 =>
        rw [hc] at hf
        cases hf
        simp [run_convs, hc]
      | ok a =>
        rw [hc] at hf
        simp [run_convs, hc, ih xs hf]

/-- C3: a tuple conversion of arity `ts.length` (1..12) succeeds exactly on an
`Array` of that exact length whose elements all convert positionally; an
`Array` of any other length fails with the error naming the tuple type and
the actual elements; a non-`Array` always fails; and on a length-matched
`Array` the elements are consumed left to right, the first failing element's
error becoming the result. -/
theorem C3_tuple_conversion {ts : List Type} (tyName : String) (cs : ConvList ts)
    (harity1 : 1 ≤ ts.length) (harity12 : ts.length ≤ 12) :
    (∀ v, (∃ r, from_graph_value_for_tuple tyName cs v = .ok r) ↔
      (∃ items, v = GraphValue.Array items ∧ items.length = ts.length ∧ ConvsOk cs items))
    ∧ (∀ items : List GraphValue, items.length ≠ ts.length →
      from_graph_value_for_tuple tyName cs (GraphValue.Array items) =
        .error (create_rediserror ("Wrong length to create Tuple " ++ tyName ++
          " from [" ++ debug_graphvalue_list items ++ "]")))
    ∧ (∀ v, (∀ items, v ≠ GraphValue.Array items) →
      from_graph_value_for_tuple tyName cs v =
        .error (create_rediserror ("Can not create Tuple from " ++ debug_graphvalue v)))
    ∧ (∀ items e, items.length = ts.length → first_error cs items = some e →
      from_graph_value_for_tuple tyName cs (GraphValue.Array items) = .error e) := by
  refine ⟨?_, ?_, ?_, ?_⟩
  · intro v
    constructor
    · rintro ⟨r, hr⟩
      cases v with
      | Array items =>
        by_cases hlen : items.length = ts.length
        · rw [show from_graph_value_for_tuple tyName cs (GraphValue.Array items) =
              run_convs cs items by simp [from_graph_value_for_tuple, hlen]] at hr
          exact ⟨items, rfl, hlen, (run_convs_ok_iff cs items).mp ⟨r, hr⟩⟩
        · simp [from_graph_value_for_tuple, hlen] at hr
      | Unknown w => simp [from_graph_value_for_tuple] at hr
      | Map m => simp [from_graph_value_for_tuple] at hr
      | Point p => simp [from_graph_value_for_tuple] at hr
      | Path p => simp [from_graph_value_for_tuple] at hr
      | Node n => simp [from_graph_value_for_tuple] at hr
      | Relation rel => simp [from_graph_value_for_tuple] at hr
      | Integer i => simp [from_graph_value_for_tuple] at hr
      | Double d => simp [from_graph_value_for_tuple] at hr
      | String s => simp [from_graph_value_for_tuple] at hr
      | Boolean b => simp [from_graph_value_for_tuple] at hr
      | Null => simp [from_graph_value_for_tuple] at hr
    · rintro ⟨items, rfl, hlen, hok⟩
      obtain ⟨r, hr⟩ := (run_convs_ok_iff cs items).mpr hok
      exact ⟨r, by simp [from_graph_value_for_tuple, hlen, hr]⟩
  · intro items h
    simp [from_graph_value_for_tuple, h]
  · intro v h
    cases v with
    | Array items => exact absurd rfl (h items)
    | Unknown w => rfl
    | Map m => rfl
    | Point p => rfl
    | Path p => rfl
    | Node n => rfl
    | Relation rel => rfl
    | Integer i => rfl
    | Double d => rfl
    | String s => rfl
    | Boolean b => rfl
    | Null => rfl
  · intro items e hlen hf
    simp [from_graph_value_for_tuple, hlen, run_convs_first_error cs items e hf]

/-- C3 witness: the pair (u8, bool): a 2-element Array converts, a 1-element
Array fails naming the tuple type and the actual elements, and a failing
first element short-circuits. -/
theorem C3_tuple_conversion_witness :
    (∃ r, from_graph_value_for_tuple "(u8, bool)"
      (ConvList.cons u8_from_graphvalue (ConvList.cons bool_from_graphvalue ConvList.nil))
      (GraphValue.Array [GraphValue.Integer 4, GraphValue.Boolean true]) = .ok r)
    ∧ from_graph_value_for_tuple "(u8, bool)"
      (ConvList.cons u8_from_graphvalue (ConvList.cons bool_from_graphvalue ConvList.nil))
      (GraphValue.Array [GraphValue.Integer 4]) =
        .error (create_rediserror "Wrong length to create Tuple (u8, bool) from [Integer(4)]")
    ∧ from_graph_value_for_tuple "(u8, bool)"
      (ConvList.cons u8_from_graphvalue (ConvList.cons bool_from_graphvalue ConvList.nil))
      (GraphValue.Array [GraphValue.Null, GraphValue.Boolean true]) =
        .error (create_rediserror "Cant convert Null to u8") := by
  refine ⟨?_, ?_, ?_⟩
  · exact (C3_tuple_conversion "(u8, bool)" _ (by decide) (by decide)).1
      (GraphValue.Array [GraphValue.Integer 4, GraphValue.Boolean true]) |>.mpr
      ⟨[GraphValue.Integer 4, GraphValue.Boolean true], rfl, rfl,
        ⟨4, rfl⟩, ⟨true, rfl⟩, trivial⟩
  · exact ((C3_tuple_conversion "(u8, bool)" _ (by decide) (by decide)).2.1
      [GraphValue.Integer 4] (by decide)).trans (by rfl)
  · exact (C3_tuple_conversion "(u8, bool)" _ (by decide) (by decide)).2.2.2
      [GraphValue.Null, GraphValue.Boolean true] _ rfl rfl

/-- The second pass of `parse_properties` as written in the source: each
`(property_id, type_, value)` triple's value through the dispatcher keyed by
its own tag, first error wins (the `.map(...).collect::<RedisResult<_>>()`
of the source, written as the explicit traversal). -/
def convert_trips : List (Int × Int × Value) → Except RErr (List (Int × GraphValue))
  | [] => .ok []
  | t :: rest =>
    match convert_to_graphvalue t.2.1 t.2.2 with
    | .error e => .error e
    | .ok gvalue =>
      match convert_trips rest with
      | .error e => .error e
      | .ok ps => .ok ((t.1, gvalue) :: ps)

/-- Shape of a successfully decoded property triple. -/
theorem triple_from_redis_ok_shape (x : Value) (t : Int × Int × Value)
    (h : triple_from_redis x = .ok t) :
    ∃ a b, x = Value.Bulk [a, b, t.2.2]
      ∧ i64_from_redis a = .ok t.1 ∧ i64_from_redis b = .ok t.2.1 := by
  cases x with
  | Bulk l2 =>
    rcases l2 with _ | ⟨a, _ | ⟨b, _ | ⟨c, _ | ⟨d, rest⟩⟩⟩⟩
    · exact Except.noConfusion h
    · exact Except.noConfusion h
    · exact Except.noConfusion h
    · simp only [triple_from_redis] at h
      cases hA : i64_from_redis a with
      | error e => rw [hA] at h; cases h
      | ok i =>
        rw [hA] at h
        cases hB : i64_from_redis b with
        | error e => rw [hB] at h; cases h
        | ok j =>
          rw [hB] at h
          cases h
          exact ⟨a, b, rfl, hA, hB⟩
    · exact Except.noConfusion h
  | Nil => exact Except.noConfusion h
  | Int i => exact Except.noConfusion h
  | Data s => exact Except.noConfusion h
  | Status s => exact Except.noConfusion h
  | Okay => exact Except.noConfusion h

/-- The structural conversion pass agrees with the source's two-pass form on
shape-checked input. -/
theorem props_convert_list_eq (l : List Value) :
    ∀ trips, map_except triple_from_redis l = .ok trips →
      props_convert_list l = convert_trips trips := by
  induction l with
  | nil =>
    intro trips h
    cases h
    rfl
  | cons x xs ih =>
    intro trips h
    simp only [map_except] at h
    cases ht : triple_from_redis x with
    | error e => rw [ht] at h; cases h
    | ok t =>
      rw [ht] at h
      cases hts : map_except triple_from_redis xs with
      | error e => rw [hts] at h; cases h
      | ok ts2 =>
        rw [hts] at h
        cases h
        obtain ⟨i, j, c⟩ := t
        obtain ⟨a, b, rfl, hA, hB⟩ := triple_from_redis_ok_shape x (i, j, c) ht
        simp only [props_convert_list, hA, hB, convert_trips]
        cases hc : convert_to_graphvalue j c with
        | error e => simp [hc]
        | ok g =>
          simp only [hc]
          rw [ih ts2 hts]

/-- A single failing triple fails the whole conversion pass. -/
theorem convert_trips_error_of_mem (trips : List (Int × Int × Value))
    (t : Int × Int × Value) (e : RErr) (ht : t ∈ trips)
    (hc : convert_to_graphvalue t.2.1 t.2.2 = .error e) :
    ∃ e2, convert_trips trips = .error e2 := by
  induction trips with
  | nil => cases ht
  | cons y ys ih =>
    rcases List.mem_cons.mp ht with rfl | hmem
    · exact ⟨e, by simp [convert_trips, hc]⟩
    · cases hy : convert_to_graphvalue y.2.1 y.2.2 with
      | error e3 => exact ⟨e3, by simp [convert_trips, hy]⟩
      | ok g =>
        obtain ⟨e2, h2⟩ := ih hmem
        exact ⟨e2, by simp [convert_trips, hy, h2]⟩

theorem lookup_eq_none_of_not_mem_keys (l : List (Int × GraphValue)) (k : Int)
    (h : k ∉ l.map Prod.fst) : l.lookup k = none := by
  induction l with
  | nil => rfl
  | cons p rest ih =>
    simp only [List.map_cons, List.mem_cons] at h
    push_neg at h
    simp only [List.lookup, beq_eq_false_iff_ne.mpr h.1]
    exact ih h.2

theorem indexmap_collect_aux (ps : List (Int × GraphValue)) :
    ∀ acc : List (Int × GraphValue), ((acc ++ ps).map Prod.fst).Nodup →
      ps.foldl (fun acc p =>
        if (acc.lookup p.1).isSome
        then acc.map fun q => if q.1 = p.1 then (q.1, p.2) else q
        else acc ++ [p]) acc = acc ++ ps := by
  induction ps with
  | nil =>
    intro acc _
    simp
  | cons p rest ih =>
    intro acc h
    have hnd := List.nodup_append.mp (by simpa [List.map_append] using h)
    have hkey : p.1 ∉ acc.map Prod.fst := fun hmem => hnd.2.2 hmem (by simp)
    have hlook := lookup_eq_none_of_not_mem_keys acc p.1 hkey
    simp only [List.foldl_cons, hlook, Option.isSome_none, Bool.false_eq_true, if_false]
    rw [ih (acc ++ [p]) (by simpa [List.append_assoc] using h)]
    simp

/-- `IndexMap` collect keeps the sequence order when the ids are distinct. -/
theorem indexmap_collect_nodup (ps : List (Int × GraphValue))
    (h : (ps.map Prod.fst).Nodup) : indexmap_collect ps = ps := by
  have := indexmap_collect_aux ps [] (by simpa using h)
  simpa [indexmap_collect] using this

/-- A successful conversion pass keeps the property ids in triple order. -/
theorem convert_trips_ids (trips : List (Int × Int × Value)) :
    ∀ ps, convert_trips trips = .ok ps → ps.map Prod.fst = trips.map fun t => t.1 := by
  induction trips with
  | nil =>
    intro ps h
    cases h
    rfl
  | cons t rest ih =>
    intro ps h
    simp only [convert_trips] at h
    cases hc : convert_to_graphvalue t.2.1 t.2.2 with
    | error e => rw [hc] at h; cases h
    | ok g =>
      rw [hc] at h
      cases hr : convert_trips rest with
      | error e => rw [hr] at h; cases h
      | ok ps2 =>
        rw [hr] at h
        cases h
        simp [ih ps2 hr]

/-- C8: a property list decodes as a sequence of `(id, tag, raw)` triples
(the first shape error failing the whole decode), each triple's value through
the dispatcher keyed by its own tag — the source's two-pass form
`convert_trips` — collected into the insertion-ordered map; a failure of any
single triple's conversion fails the whole map; with distinct ids the
resulting map lists the pairs in exactly the sequence order of the triples. -/
theorem C8_parse_properties :
    (∀ l trips, map_except triple_from_redis l = .ok trips →
      parse_properties (Value.Bulk l) = (convert_trips trips).map indexmap_collect)
    ∧ (∀ l e, map_except triple_from_redis l = .error e →
      parse_properties (Value.Bulk l) = .error e)
    ∧ (∀ trips t e, t ∈ trips → convert_to_graphvalue t.2.1 t.2.2 = .error e →
      ∃ e2, convert_trips trips = .error e2)
    ∧ (∀ trips ps, convert_trips trips = .ok ps →
      ps.map Prod.fst = trips.map fun t => t.1)
    ∧ (∀ ps : List (Int × GraphValue), (ps.map Prod.fst).Nodup →
      indexmap_collect ps = ps) := by
  have hbulk : ∀ l : List Value, parse_properties (Value.Bulk l) =
      pp_stages (map_except triple_from_redis l) (props_convert_list l) :=
    fun l => rfl
  refine ⟨?_, ?_, ?_, convert_trips_ids, indexmap_collect_nodup⟩
  · intro l trips h
    rw [hbulk l, h, props_convert_list_eq l trips h]
    cases hc : convert_trips trips <;> simp [pp_stages, hc, Except.map]
  · intro l e h
    rw [hbulk l, h]
    rfl
  · intro trips t e ht hc
    exact convert_trips_error_of_mem trips t e ht hc

/-- C8 witness: two triples with ids 10 then 3 (not in numeric order) decode
to the pair list in sequence order; a triple whose value fails its own tag's
decode fails the whole pass. -/
theorem C8_parse_properties_witness :
    parse_properties (Value.Bulk [Value.Bulk [Value.Int 10, Value.Int 3, Value.Int 7],
        Value.Bulk [Value.Int 3, Value.Int 2, Value.Data "hi"]]) =
      .ok [(10, GraphValue.Integer 7), (3, GraphValue.String "hi")]
    ∧ (∃ e2, convert_trips [(1, 4, Value.Data "zzz")] = .error e2) :=
  ⟨(C8_parse_properties.1
      [Value.Bulk [Value.Int 10, Value.Int 3, Value.Int 7],
        Value.Bulk [Value.Int 3, Value.Int 2, Value.Data "hi"]]
      [(10, 3, Value.Int 7), (3, 2, Value.Data "hi")] rfl).trans (by rfl),
   C8_parse_properties.2.2.1 [(1, 4, Value.Data "zzz")] (1, 4, Value.Data "zzz")
     (create_rediserror "Cant convert Data([122, 122, 122]) to bool")
     (by simp) (by rfl)⟩
